import Mathlib

/-!
Shallow embedding of the bounded tool-orchestration loop of
backend/ai_generator.py (class AIGenerator), together with a model of the
content-search tool of the repository, and theorems settling claims about
this code.

The generative-model endpoint is embedded as an oracle mapping the index of
a call (0-based, in the order the calls are issued) to the response that
call returns; tool execution is embedded as a function returning Except,
where an error value models a raised exception, which the orchestrator
catches.  The embedding of generate_response returns a trace recording
every request issued to the endpoint, every tool invocation dispatched,
and the final returned text.  The final text is an Option: none models the
Python expression response.content[0].text raising (IndexError on empty
content, AttributeError when the first block is a tool-use block).
-/

/-- One content block of a model response: a text block, or a tool-use
request block carrying a tool name, a call id and the input
arguments (a mapping of parameter name to value). -/
inductive ContentBlock where
  | textBlock (text : String)
  | toolUse (name : String) (id : String) (input : List (String × String))
  deriving DecidableEq

/-- One tool-result entry sent back to the endpoint: the dictionary with
keys tool_use_id and content built at ai_generator.py lines 159 to 163
(the constant type field tool_result is left implicit). -/
structure ToolResultEntry where
  tool_use_id : String
  content : String
  deriving DecidableEq

/-- Content of one message in the running buffer: plain text (the initial
user query), the content-block list of an assistant response, or the
tool-result list of the user message built after a round of dispatch. -/
inductive MessageContent where
  | ofText (s : String)
  | ofBlocks (bs : List ContentBlock)
  | ofResults (rs : List ToolResultEntry)
  deriving DecidableEq

/-- One message of the conversation buffer: a role plus content. -/
structure ChatMessage where
  role : String
  content : MessageContent
  deriving DecidableEq

/-- One request issued to the generative-model endpoint.  The tools field
is none when the request dictionary carries no tools key at all, and
some ts when the key is present with schema list ts; likewise for
tool_choice (some "auto" embeds tool_choice = type auto). -/
structure ApiRequest where
  messages : List ChatMessage
  system : String
  tools : Option (List String)
  tool_choice : Option String
  deriving DecidableEq

/-- One response of the generative-model endpoint: a stop reason (the
orchestrator only inspects whether it equals "tool_use") and an ordered
list of content blocks. -/
structure ModelResponse where
  stop_reason : String
  content : List ContentBlock
  deriving DecidableEq

/-- The tool manager: executing a named tool on input arguments either
returns a result text or raises; a raised exception is embedded as an
error value carrying the exception message str e. -/
def ToolManager : Type := String → List (String × String) → Except String String

/-- Trace of one generate_response run: the requests issued to the
endpoint in order, the tool invocations dispatched in order (name and
input), and the returned answer text (none models a crash of the final
content[0].text extraction). -/
structure CallTrace where
  requests : List ApiRequest
  toolCalls : List (String × List (String × String))
  result : Option String
  deriving DecidableEq

/-- The static system prompt of AIGenerator (ai_generator.py lines 9
to 33); its exact wording is irrelevant to every property proved below. -/
def SYSTEM_PROMPT : String :=
  "You are an AI assistant specialized in course materials and educational content with access to comprehensive search and outline tools for course information."

/-- Embeds response.content[0].text: the text of the first content block.
Returns none when the content list is empty (IndexError in the source) or
when the first block is a tool-use block (AttributeError in the source,
since a tool-use block has no text attribute). -/
def contentFirstText : List ContentBlock → Option String
  | ContentBlock.textBlock t :: _ => some t
  | _ => none

/-- Embeds the try/except wrapper around tool_manager.execute_tool at
ai_generator.py lines 151 to 157: an exception raised by the tool is
caught and replaced by the text "Tool execution error: " followed by the
exception message. -/
def execOutcome (tm : ToolManager) (name : String) (input : List (String × String)) : String :=
  match tm name input with
  | Except.ok r => r
  | Except.error e => "Tool execution error: " ++ e

/-- Embeds the tool_results accumulation loop at ai_generator.py lines 148
to 163: one result entry, keyed by the call id of the request block, for
every tool-use block of the response content, in order; other blocks
contribute nothing. -/
def roundToolResults (tm : ToolManager) (content : List ContentBlock) : List ToolResultEntry :=
  content.filterMap fun b =>
    match b with
    | ContentBlock.toolUse name id input => some ⟨id, execOutcome tm name input⟩
    | _ => none

/-- The tool invocations dispatched while processing one response content:
the (name, input) pair of every tool-use block, in order. -/
def roundToolCalls (content : List ContentBlock) : List (String × List (String × String)) :=
  content.filterMap fun b =>
    match b with
    | ContentBlock.toolUse name _ input => some (name, input)
    | _ => none

/-- The tool-use request blocks of a response content, as (name, id,
input) triples, in order; used to state properties of the dispatch loop
independently of how it computes. -/
def toolRequests (content : List ContentBlock) : List (String × String × List (String × String)) :=
  content.filterMap fun b =>
    match b with
    | ContentBlock.toolUse name id input => some (name, id, input)
    | _ => none

/-- Embeds the message-buffer growth of _execute_single_round
(ai_generator.py lines 144 to 167): append the assistant response content,
then, when the round produced at least one tool result, append one user
message holding all tool results of the round. -/
def singleRoundMessages (tm : ToolManager) (messages : List ChatMessage)
    (response : ModelResponse) : List ChatMessage :=
  let ms := messages ++ [⟨"assistant", MessageContent.ofBlocks response.content⟩]
  let trs := roundToolResults tm response.content
  if trs.isEmpty then ms else ms ++ [⟨"user", MessageContent.ofResults trs⟩]

/-- Embeds the while loop of _execute_rounds (ai_generator.py lines 113 to
127) together with the per-round endpoint call of _execute_single_round
(lines 169 to 178).  Arguments: the oracle, the system text, the tools
list (base_params.get of tools with default empty), the tool manager, the
index the next endpoint call will have, the current message buffer, the
current response, and the remaining round budget (max_rounds minus
rounds_completed).  Returns the requests issued, the tool invocations
dispatched, and the final returned text.  Each per-round request carries
the tools key and tool_choice auto, exactly as lines 170 to 176 build it. -/
def execute_rounds (model : Nat → ModelResponse) (system : String) (tools : List String)
    (tm : ToolManager) :
    Nat → List ChatMessage → ModelResponse → Nat →
    List ApiRequest × List (String × List (String × String)) × Option String
  | _, _, current, 0 => ([], [], contentFirstText current.content)
  | callIdx, messages, current, remaining + 1 =>
    if current.stop_reason = "tool_use" then
      let messages2 := singleRoundMessages tm messages current
      let req : ApiRequest := ⟨messages2, system, some tools, some "auto"⟩
      let rest := execute_rounds model system tools tm (callIdx + 1) messages2 (model callIdx) remaining
      (req :: rest.1, roundToolCalls current.content ++ rest.2.1, rest.2.2)
    else
      ([], [], contentFirstText current.content)

/-- Embeds the system content built at ai_generator.py lines 66 to 70:
the static prompt, extended by the prior-conversation text when one is
given. -/
def systemContent (conversation_history : Option String) : String :=
  match conversation_history with
  | some h => SYSTEM_PROMPT ++ "\n\nPrevious conversation:\n" ++ h
  | none => SYSTEM_PROMPT

/-- Embeds the initial message buffer built at ai_generator.py line 75:
one user message holding the query text. -/
def initMessages (query : String) : List ChatMessage :=
  [⟨"user", MessageContent.ofText query⟩]

/-- Embeds AIGenerator.generate_response (ai_generator.py lines 46 to 94).
The oracle model gives the response of the i-th endpoint call; query,
conversation_history, tools, tool_manager and max_rounds are the Python
parameters (Python None and the empty list are both falsy for tools, so
tools is embedded as a plain list and the emptiness test embeds the
truthiness test at line 80; max_rounds is compared against None at line
90, embedded by the Option).  Returns the full call trace. -/
def generate_response (model : Nat → ModelResponse) (query : String)
    (conversation_history : Option String) (tools : List String)
    (tool_manager : Option ToolManager) (max_rounds : Option Nat) : CallTrace :=
  let req0 : ApiRequest :=
    ⟨initMessages query, systemContent conversation_history,
     if tools.isEmpty then none else some tools,
     if tools.isEmpty then none else some "auto"⟩
  let response := model 0
  match tool_manager with
  | some tm =>
    if response.stop_reason = "tool_use" then
      let rounds_limit := max_rounds.getD 2
      let rest := execute_rounds model (systemContent conversation_history) tools tm 1
        (initMessages query) response rounds_limit
      ⟨req0 :: rest.1, rest.2.1, rest.2.2⟩
    else
      ⟨[req0], [], contentFirstText response.content⟩
  | none => ⟨[req0], [], contentFirstText response.content⟩

def respSeq (model : Nat → ModelResponse) (c : Nat) (cur : ModelResponse) : Nat → ModelResponse
  | 0 => cur
  | i + 1 => model (c + i)

theorem respSeq_shift (model : Nat → ModelResponse) (c : Nat) (cur : ModelResponse) :
    ∀ i, respSeq model (c + 1) (model c) i = respSeq model c cur (i + 1)
  | 0 => rfl
  | i + 1 => congrArg model (by omega)

theorem execute_rounds_length_all (model : Nat → ModelResponse) (sys : String)
    (tools : List String) (tm : ToolManager) (rem : Nat) :
    ∀ (c : Nat) (msgs : List ChatMessage) (cur : ModelResponse),
      (∀ i, i < rem → (respSeq model c cur i).stop_reason = "tool_use") →
      (execute_rounds model sys tools tm c msgs cur rem).1.length = rem := by
  induction rem with
  | zero => intro c msgs cur h; rfl
  | succ rem ih =>
    intro c msgs cur h
    have h0 : cur.stop_reason = "tool_use" := h 0 (Nat.succ_pos rem)
    simp only [execute_rounds, if_pos h0, List.length_cons]
    rw [ih (c + 1) (singleRoundMessages tm msgs cur) (model c) ?_]
    intro i hi
    rw [respSeq_shift model c cur i]
    exact h (i + 1) (by omega)

theorem execute_rounds_length_stop (model : Nat → ModelResponse) (sys : String)
    (tools : List String) (tm : ToolManager) (rem : Nat) :
    ∀ (k c : Nat) (msgs : List ChatMessage) (cur : ModelResponse),
      (∀ i, i < k → (respSeq model c cur i).stop_reason = "tool_use") →
      (respSeq model c cur k).stop_reason ≠ "tool_use" →
      (execute_rounds model sys tools tm c msgs cur rem).1.length = min k rem := by
  induction rem with
  | zero => intro k c msgs cur h1 h2; simp [execute_rounds]
  | succ rem ih =>
    intro k c msgs cur h1 h2
    match k with
    | 0 =>
      have h0 : ¬ cur.stop_reason = "tool_use" := h2
      simp only [execute_rounds, if_neg h0, List.length_nil, Nat.zero_min]
    | k + 1 =>
      have h0 : cur.stop_reason = "tool_use" := h1 0 (Nat.succ_pos k)
      simp only [execute_rounds, if_pos h0, List.length_cons, Nat.succ_min_succ]
      rw [ih k (c + 1) (singleRoundMessages tm msgs cur) (model c) ?_ ?_]
      · intro i hi
        rw [respSeq_shift model c cur i]
        exact h1 (i + 1) (by omega)
      · rw [respSeq_shift model c cur k]
        exact h2

theorem execute_rounds_result_all (model : Nat → ModelResponse) (sys : String)
    (tools : List String) (tm : ToolManager) (rem : Nat) :
    ∀ (c : Nat) (msgs : List ChatMessage) (cur : ModelResponse),
      (∀ i, i < rem → (respSeq model c cur i).stop_reason = "tool_use") →
      (execute_rounds model sys tools tm c msgs cur rem).2.2
        = contentFirstText (respSeq model c cur rem).content := by
  induction rem with
  | zero => intro c msgs cur h; rfl
  | succ rem ih =>
    intro c msgs cur h
    have h0 : cur.stop_reason = "tool_use" := h 0 (Nat.succ_pos rem)
    simp only [execute_rounds, if_pos h0]
    rw [ih (c + 1) (singleRoundMessages tm msgs cur) (model c) ?_, respSeq_shift model c cur rem]
    intro i hi
    rw [respSeq_shift model c cur i]
    exact h (i + 1) (by omega)

theorem execute_rounds_result_general (model : Nat → ModelResponse) (sys : String)
    (tools : List String) (tm : ToolManager) (rem : Nat) :
    ∀ (c : Nat) (msgs : List ChatMessage) (cur : ModelResponse),
      ((execute_rounds model sys tools tm c msgs cur rem).1.length = 0 →
        (execute_rounds model sys tools tm c msgs cur rem).2.2 = contentFirstText cur.content) ∧
      (∀ n, (execute_rounds model sys tools tm c msgs cur rem).1.length = n + 1 →
        (execute_rounds model sys tools tm c msgs cur rem).2.2
          = contentFirstText (model (c + n)).content) := by
  induction rem with
  | zero =>
    intro c msgs cur
    exact ⟨fun _ => rfl, fun n hn => by simp [execute_rounds] at hn⟩
  | succ rem ih =>
    intro c msgs cur
    by_cases h0 : cur.stop_reason = "tool_use"
    · simp only [execute_rounds, if_pos h0, List.length_cons]
      constructor
      · intro h; omega
      · intro n hn
        have hn2 : (execute_rounds model sys tools tm (c + 1)
            (singleRoundMessages tm msgs cur) (model c) rem).1.length = n := by omega
        match n with
        | 0 =>
          have := (ih (c + 1) (singleRoundMessages tm msgs cur) (model c)).1 hn2
          simpa using this
        | n + 1 =>
          have := (ih (c + 1) (singleRoundMessages tm msgs cur) (model c)).2 n hn2
          rw [this, show c + 1 + n = c + (n + 1) from by omega]
    · constructor
      · intro _
        simp only [execute_rounds, if_neg h0]
      · intro n hn
        simp only [execute_rounds, if_neg h0, List.length_nil] at hn
        omega

theorem execute_rounds_req_fields (model : Nat → ModelResponse) (sys : String)
    (tools : List String) (tm : ToolManager) (rem : Nat) :
    ∀ (c : Nat) (msgs : List ChatMessage) (cur : ModelResponse) (r : ApiRequest),
      r ∈ (execute_rounds model sys tools tm c msgs cur rem).1 →
      r.tools = some tools ∧ r.tool_choice = some "auto" := by
  induction rem with
  | zero => intro c msgs cur r hr; simp [execute_rounds] at hr
  | succ rem ih =>
    intro c msgs cur r hr
    by_cases h0 : cur.stop_reason = "tool_use"
    · simp only [execute_rounds, if_pos h0, List.mem_cons] at hr
      rcases hr with hr | hr
      · subst hr; exact ⟨rfl, rfl⟩
      · exact ih (c + 1) (singleRoundMessages tm msgs cur) (model c) r hr
    · simp [execute_rounds, if_neg h0] at hr

theorem respSeq_one (model : Nat → ModelResponse) : ∀ i, respSeq model 1 (model 0) i = model i
  | 0 => rfl
  | i + 1 => congrArg model (by omega)

/-- Helper: the element extracted by getLast? is a member of the list. -/
theorem getLast?_is_mem {α : Type} : ∀ {l : List α} {a : α}, l.getLast? = some a → a ∈ l
  | [], _, h => by simp at h
  | [b], a, h => by simp at h; simp [h]
  | b :: c :: l, a, h => by
    rw [List.getLast?_cons_cons] at h
    exact List.mem_cons_of_mem _ (getLast?_is_mem h)

/-- The relation between the message buffers of two consecutive endpoint
requests inside the round loop: the later buffer is the earlier one with
the assistant response appended, followed by one user message of tool
results whenever the round produced any. -/
def ExtendsBy (old new : List ChatMessage) : Prop :=
  ∃ bs : List ContentBlock,
    new = old ++ [⟨"assistant", MessageContent.ofBlocks bs⟩] ∨
    ∃ rs : List ToolResultEntry,
      new = old ++ [⟨"assistant", MessageContent.ofBlocks bs⟩,
                    ⟨"user", MessageContent.ofResults rs⟩]

theorem ExtendsBy.init_seg {old new : List ChatMessage} (h : ExtendsBy old new) :
    old <+: new := by
  rcases h with ⟨bs, h | ⟨rs, h⟩⟩ <;> subst h <;> exact List.prefix_append _ _

theorem extendsBy_singleRoundMessages (tm : ToolManager) (msgs : List ChatMessage)
    (cur : ModelResponse) : ExtendsBy msgs (singleRoundMessages tm msgs cur) := by
  refine ⟨cur.content, ?_⟩
  unfold singleRoundMessages
  by_cases h : (roundToolResults tm cur.content).isEmpty
  · left; simp [h]
  · right
    exact ⟨roundToolResults tm cur.content, by simp [h]⟩

theorem execute_rounds_chain (model : Nat → ModelResponse) (sys : String)
    (tools : List String) (tm : ToolManager) (rem : Nat) :
    ∀ (c : Nat) (msgs : List ChatMessage) (cur : ModelResponse),
      List.Chain' (fun a b : ApiRequest => ExtendsBy a.messages b.messages)
        (execute_rounds model sys tools tm c msgs cur rem).1 ∧
      (∀ r : ApiRequest, (execute_rounds model sys tools tm c msgs cur rem).1.head? = some r →
        ExtendsBy msgs r.messages) := by
  induction rem with
  | zero =>
    intro c msgs cur
    exact ⟨List.chain'_nil, fun r hr => by simp [execute_rounds] at hr⟩
  | succ rem ih =>
    intro c msgs cur
    by_cases h0 : cur.stop_reason = "tool_use"
    · simp only [execute_rounds, if_pos h0]
      constructor
      · rw [List.chain'_cons']
        refine ⟨?_, (ih (c + 1) (singleRoundMessages tm msgs cur) (model c)).1⟩
        intro b hb
        exact (ih (c + 1) (singleRoundMessages tm msgs cur) (model c)).2 b (Option.mem_def.mp hb)
      · intro r hr
        simp only [List.head?_cons, Option.some.injEq] at hr
        subst hr
        exact extendsBy_singleRoundMessages tm msgs cur
    · simp only [execute_rounds, if_neg h0]
      exact ⟨List.chain'_nil, fun r hr => by simp at hr⟩

theorem roundToolResults_eq_map (tm : ToolManager) (content : List ContentBlock) :
    roundToolResults tm content
      = (toolRequests content).map fun r => ⟨r.2.1, execOutcome tm r.1 r.2.2⟩ := by
  induction content with
  | nil => rfl
  | cons b bs ih =>
    cases b with
    | textBlock t => simpa [roundToolResults, toolRequests, List.filterMap_cons] using ih
    | toolUse name id input => simpa [roundToolResults, toolRequests, List.filterMap_cons] using ih

theorem roundToolCalls_eq_map (content : List ContentBlock) :
    roundToolCalls content = (toolRequests content).map fun r => (r.1, r.2.2) := by
  induction content with
  | nil => rfl
  | cons b bs ih =>
    cases b with
    | textBlock t => simpa [roundToolCalls, toolRequests, List.filterMap_cons] using ih
    | toolUse name id input => simpa [roundToolCalls, toolRequests, List.filterMap_cons] using ih

theorem roundToolResults_error_mem (tm : ToolManager) (content : List ContentBlock) :
    ∀ (name id : String) (input : List (String × String)) (e : String),
      ContentBlock.toolUse name id input ∈ content →
      tm name input = Except.error e →
      (⟨id, "Tool execution error: " ++ e⟩ : ToolResultEntry) ∈ roundToolResults tm content := by
  intro name id input e hmem herr
  induction content with
  | nil => simp at hmem
  | cons b bs ih =>
    rcases List.mem_cons.mp hmem with hb | hb
    · subst hb
      simp [roundToolResults, List.filterMap_cons, execOutcome, herr]
    · cases b with
      | textBlock t => simpa [roundToolResults, List.filterMap_cons] using ih hb
      | toolUse n i inp =>
        simp only [roundToolResults, List.filterMap_cons]
        exact List.mem_cons_of_mem _ (ih hb)

/-- A tool-use request block used in concrete scenarios. -/
def exToolBlock : ContentBlock :=
  ContentBlock.toolUse "search_course_content" "t1" [("query", "more")]

/-- A response that requests tools. -/
def exToolResp : ModelResponse := ⟨"tool_use", [exToolBlock]⟩

/-- A terminal response whose first block is a text block. -/
def exFinalResp : ModelResponse := ⟨"end_turn", [ContentBlock.textBlock "Final answer"]⟩

/-- An oracle that requests tools at every call. -/
def exModel : Nat → ModelResponse := fun _ => exToolResp

/-- An oracle that never requests tools. -/
def exModelDirect : Nat → ModelResponse := fun _ => exFinalResp

/-- A tool manager whose execution always succeeds. -/
def exTM : ToolManager := fun _ _ => Except.ok "Tool result"

/-- C2: starting from one user query with tools registered, if the model
requests tools at every opportunity the orchestrator makes exactly R+1
endpoint calls (R the round cap, defaulting to 2 when the caller supplies
none), and if the model stops requesting tools after k < R rounds it makes
exactly k+1 calls. -/
theorem C2_call_counts (model : Nat → ModelResponse) (query : String)
    (hist : Option String) (tools : List String) (tm : ToolManager) (R : Nat)
    (htools : tools ≠ []) :
    (generate_response model query hist tools (some tm) none
      = generate_response model query hist tools (some tm) (some 2)) ∧
    ((∀ i, i ≤ R → (model i).stop_reason = "tool_use") →
      (generate_response model query hist tools (some tm) (some R)).requests.length = R + 1) ∧
    (∀ k, k < R → (∀ i, i < k → (model i).stop_reason = "tool_use") →
      (model k).stop_reason ≠ "tool_use" →
      (generate_response model query hist tools (some tm) (some R)).requests.length = k + 1) := by
  refine ⟨rfl, ?_, ?_⟩
  · intro hall
    have h0 : (model 0).stop_reason = "tool_use" := hall 0 (Nat.zero_le R)
    simp only [generate_response, if_pos h0, List.length_cons, Option.getD]
    rw [execute_rounds_length_all model (systemContent hist) tools tm R 1
      (initMessages query) (model 0) ?_]
    intro i hi
    rw [respSeq_one model i]
    exact hall i (Nat.le_of_lt hi)
  · intro k hkR hlt hstop
    by_cases hk0 : k = 0
    · subst hk0
      simp only [generate_response, if_neg hstop, List.length_singleton]
    · have h0 : (model 0).stop_reason = "tool_use" := hlt 0 (Nat.pos_of_ne_zero hk0)
      simp only [generate_response, if_pos h0, List.length_cons, Option.getD]
      rw [execute_rounds_length_stop model (systemContent hist) tools tm R k 1
        (initMessages query) (model 0) ?_ ?_]
      · rw [Nat.min_eq_left (Nat.le_of_lt hkR)]
      · intro i hi
        rw [respSeq_one model i]
        exact hlt i hi
      · rw [respSeq_one model k]
        exact hstop

/-- C2 witness: with an oracle that always requests tools and R = 1, the
trace holds exactly 2 requests. -/
theorem C2_witness :
    (generate_response exModel "q" none ["schema"] (some exTM) (some 1)).requests.length = 2 :=
  (C2_call_counts exModel "q" none ["schema"] exTM 1 (by decide)).2.1 (fun i _ => rfl)

/-- C1 counterexample: with a round cap of R = 2 and an oracle that
requests tools at every call, the orchestrator issues exactly 3 endpoint
calls, and the final (R+1)-th request still offers the tool schemas with
tool choice auto — the claim that the final call is made with tools
withdrawn (no tool schemas offered, tool choice removed) is false at this
input. -/
theorem C1_counterexample :
    (generate_response exModel "Keep searching" none ["schema_search"]
      (some exTM) (some 2)).requests.length = 3 ∧
    ((generate_response exModel "Keep searching" none ["schema_search"]
      (some exTM) (some 2)).requests.getLast?.map ApiRequest.tools)
        = some (some ["schema_search"]) ∧
    ((generate_response exModel "Keep searching" none ["schema_search"]
      (some exTM) (some 2)).requests.getLast?.map ApiRequest.tool_choice)
        = some (some "auto") := by
  decide

/-- C1 amended: when the model still requests tools at the round cap R
(R at least 1, tools registered), the orchestrator makes exactly R+1
endpoint calls; the final (R+1)-th call is made with the tool schemas
still offered and tool choice auto (tools are not withdrawn), and the
text of the first content block of that final response is returned as-is
as the answer (none when that block is not a text block). -/
theorem C1_amended_final_call (model : Nat → ModelResponse) (query : String)
    (hist : Option String) (tools : List String) (tm : ToolManager) (R : Nat)
    (hR : 1 ≤ R) (htools : tools ≠ [])
    (hall : ∀ i, i ≤ R → (model i).stop_reason = "tool_use") :
    (generate_response model query hist tools (some tm) (some R)).requests.length = R + 1 ∧
    (∀ r : ApiRequest,
      (generate_response model query hist tools (some tm) (some R)).requests.getLast? = some r →
      r.tools = some tools ∧ r.tool_choice = some "auto") ∧
    (generate_response model query hist tools (some tm) (some R)).result
      = contentFirstText (model R).content := by
  have h0 : (model 0).stop_reason = "tool_use" := hall 0 (Nat.zero_le R)
  have hle : ∀ i, i < R → (respSeq model 1 (model 0) i).stop_reason = "tool_use" := by
    intro i hi
    rw [respSeq_one model i]
    exact hall i (Nat.le_of_lt hi)
  have hne : tools.isEmpty = false := by
    cases tools with
    | nil => exact absurd rfl htools
    | cons a l => rfl
  refine ⟨?_, ?_, ?_⟩
  · simp only [generate_response, if_pos h0, List.length_cons, Option.getD]
    rw [execute_rounds_length_all model (systemContent hist) tools tm R 1
      (initMessages query) (model 0) hle]
  · intro r hr
    have hmem : r ∈ (generate_response model query hist tools (some tm) (some R)).requests :=
      getLast?_is_mem hr
    simp only [generate_response, if_pos h0, Option.getD, List.mem_cons] at hmem
    rcases hmem with hmem | hmem
    · subst hmem
      constructor
      · show (if tools.isEmpty then none else some tools) = some tools
        rw [hne]
        rfl
      · show (if tools.isEmpty then none else some "auto") = some "auto"
        rw [hne]
        rfl
    · exact execute_rounds_req_fields model (systemContent hist) tools tm R 1
        (initMessages query) (model 0) r hmem
  · simp only [generate_response, if_pos h0, Option.getD]
    rw [execute_rounds_result_all model (systemContent hist) tools tm R 1
      (initMessages query) (model 0) hle, respSeq_one model R]

/-- C1 amended witness: concrete instance with R = 1 and an oracle that
always requests tools; the trace holds 2 requests. -/
theorem C1_amended_witness :
    (generate_response exModel "q" none ["schema"] (some exTM) (some 1)).requests.length = 2 ∧
    (generate_response exModel "q" none ["schema"] (some exTM) (some 1)).result
      = contentFirstText (exModel 1).content := by
  have h := C1_amended_final_call exModel "q" none ["schema"] exTM 1 (Nat.le_refl 1)
    (by decide) (fun i _ => rfl)
  exact ⟨h.1, h.2.2⟩

/-- C4: for a query issued with zero registered tools, exactly one
endpoint call is made, it offers no tool schemas, no tool is dispatched,
and the text of the first content block of that response is returned
verbatim; the hypothesis embeds the endpoint contract that a call made
without tools is not answered with a tool-use stop reason. -/
theorem C4_no_tools_single_call (model : Nat → ModelResponse) (query : String)
    (hist : Option String) (tmo : Option ToolManager) (mr : Option Nat)
    (h : (model 0).stop_reason ≠ "tool_use") :
    (generate_response model query hist [] tmo mr).requests.length = 1 ∧
    (generate_response model query hist [] tmo mr).toolCalls = [] ∧
    (generate_response model query hist [] tmo mr).result
      = contentFirstText (model 0).content ∧
    ((generate_response model query hist [] tmo mr).requests.map ApiRequest.tools)
      = [none] := by
  cases tmo with
  | none => exact ⟨rfl, rfl, rfl, rfl⟩
  | some tm =>
    refine ⟨?_, ?_, ?_, ?_⟩ <;> simp [generate_response, if_neg h]

/-- C4 witness: concrete run with zero tools and a direct answer. -/
theorem C4_witness :
    (generate_response exModelDirect "q" none [] (some exTM) none).requests.length = 1 ∧
    (generate_response exModelDirect "q" none [] (some exTM) none).result
      = some "Final answer" := by
  have h := C4_no_tools_single_call exModelDirect "q" none (some exTM) none (by decide)
  exact ⟨h.1, h.2.2.1⟩

/-- C8: if max_rounds is explicitly 0 and the first response requests
tools, the round loop executes zero iterations: a single endpoint call,
no tool dispatched, and the text extraction of the first content block of
that tool-requesting response is returned (no forced tool-less synthesis
call is issued for R = 0). -/
theorem C8_zero_rounds (model : Nat → ModelResponse) (query : String)
    (hist : Option String) (tools : List String) (tm : ToolManager)
    (h0 : (model 0).stop_reason = "tool_use") :
    (generate_response model query hist tools (some tm) (some 0)).requests.length = 1 ∧
    (generate_response model query hist tools (some tm) (some 0)).toolCalls = [] ∧
    (generate_response model query hist tools (some tm) (some 0)).result
      = contentFirstText (model 0).content := by
  simp only [generate_response, if_pos h0, Option.getD]
  exact ⟨rfl, rfl, rfl⟩

/-- C8 witness: concrete run with max_rounds 0 and a tool-requesting
first response; one request, no tool call, and the returned text is none
because the first content block is a tool-use block. -/
theorem C8_witness :
    (generate_response exModel "q" none ["schema"] (some exTM) (some 0)).requests.length = 1 ∧
    (generate_response exModel "q" none ["schema"] (some exTM) (some 0)).toolCalls = [] ∧
    (generate_response exModel "q" none ["schema"] (some exTM) (some 0)).result = none :=
  C8_zero_rounds exModel "q" none ["schema"] exTM rfl

/-- C9: if tools are offered but no tool manager is supplied and the
response requests tools, generate_response makes exactly one endpoint
call (which did offer the tool schemas), dispatches no tool, and returns
the text extraction of the first content block of that response. -/
theorem C9_no_manager_single_call (model : Nat → ModelResponse) (query : String)
    (hist : Option String) (tools : List String) (mr : Option Nat)
    (htools : tools ≠ []) (h0 : (model 0).stop_reason = "tool_use") :
    (generate_response model query hist tools none mr).requests.length = 1 ∧
    (generate_response model query hist tools none mr).toolCalls = [] ∧
    (generate_response model query hist tools none mr).result
      = contentFirstText (model 0).content ∧
    ((generate_response model query hist tools none mr).requests.map ApiRequest.tools)
      = [some tools] := by
  have hne : tools.isEmpty = false := by
    cases tools with
    | nil => exact absurd rfl htools
    | cons a l => rfl
  refine ⟨rfl, rfl, rfl, ?_⟩
  simp only [generate_response, List.map_cons, List.map_nil, hne]
  rfl

/-- C9 witness: concrete run with tools offered, no tool manager, and a
tool-requesting response; a single request and the result is none since
the first content block is a tool-use block. -/
theorem C9_witness :
    (generate_response exModel "q" none ["schema"] none (some 2)).requests.length = 1 ∧
    (generate_response exModel "q" none ["schema"] none (some 2)).result = none := by
  have h := C9_no_manager_single_call exModel "q" none ["schema"] (some 2) (by decide) rfl
  exact ⟨h.1, h.2.2.1⟩

/-- C5: within one query the message buffer grows append-only: between
consecutive endpoint requests the buffer is extended by the assistant
response and, when the round produced tool results, one user message of
tool results; consequently the message list sent to each call has the
previous list as an initial segment. -/
theorem C5_append_only (model : Nat → ModelResponse) (query : String)
    (hist : Option String) (tools : List String) (tmo : Option ToolManager)
    (mr : Option Nat) :
    List.Chain' (fun a b : ApiRequest => ExtendsBy a.messages b.messages)
      (generate_response model query hist tools tmo mr).requests ∧
    List.Chain' (fun a b : ApiRequest => a.messages <+: b.messages)
      (generate_response model query hist tools tmo mr).requests := by
  have main : List.Chain' (fun a b : ApiRequest => ExtendsBy a.messages b.messages)
      (generate_response model query hist tools tmo mr).requests := by
    cases tmo with
    | none => exact List.chain'_singleton _
    | some tm =>
      by_cases h0 : (model 0).stop_reason = "tool_use"
      · simp only [generate_response, if_pos h0]
        rw [List.chain'_cons']
        constructor
        · intro b hb
          exact (execute_rounds_chain model (systemContent hist) tools tm (Option.getD mr 2) 1
            (initMessages query) (model 0)).2 b (Option.mem_def.mp hb)
        · exact (execute_rounds_chain model (systemContent hist) tools tm (Option.getD mr 2) 1
            (initMessages query) (model 0)).1
      · simp only [generate_response, if_neg h0]
        exact List.chain'_singleton _
  exact ⟨main, main.imp fun _ _ h => ExtendsBy.init_seg h⟩

/-- Helper: a defined first-text extraction forces the first content block
to be a text block with that text. -/
theorem contentFirstText_some {l : List ContentBlock} {a : String}
    (h : contentFirstText l = some a) :
    ∃ rest, l = ContentBlock.textBlock a :: rest := by
  match l with
  | [] => exact Option.noConfusion h
  | ContentBlock.textBlock t :: r =>
    refine ⟨r, ?_⟩
    have ht : t = a := by
      have := h
      simp [contentFirstText] at this
      exact this
    rw [ht]
  | ContentBlock.toolUse n i inp :: r => exact Option.noConfusion h

/-- C10: the returned answer is exactly the text extraction of the first
content block of the last endpoint response; blocks after the first never
influence the extraction; and whenever an answer is returned, the first
content block of the last response is a text block holding it. -/
theorem C10_result_extraction (model : Nat → ModelResponse) (query : String)
    (hist : Option String) (tools : List String) (tmo : Option ToolManager)
    (mr : Option Nat) :
    (generate_response model query hist tools tmo mr).result
      = contentFirstText
          (model ((generate_response model query hist tools tmo mr).requests.length - 1)).content ∧
    (∀ (b : ContentBlock) (rest1 rest2 : List ContentBlock),
      contentFirstText (b :: rest1) = contentFirstText (b :: rest2)) ∧
    (∀ a, (generate_response model query hist tools tmo mr).result = some a →
      ∃ rest,
        (model ((generate_response model query hist tools tmo mr).requests.length - 1)).content
          = ContentBlock.textBlock a :: rest) := by
  have first :
      (generate_response model query hist tools tmo mr).result
        = contentFirstText
            (model ((generate_response model query hist tools tmo mr).requests.length - 1)).content := by
    cases tmo with
    | none => rfl
    | some tm =>
      by_cases h0 : (model 0).stop_reason = "tool_use"
      · simp only [generate_response, if_pos h0]
        obtain ⟨hz, hs⟩ := execute_rounds_result_general model (systemContent hist) tools tm
          (Option.getD mr 2) 1 (initMessages query) (model 0)
        cases hn : (execute_rounds model (systemContent hist) tools tm 1
            (initMessages query) (model 0) (Option.getD mr 2)).1.length with
        | zero =>
          rw [hz hn]
          simp [hn]
        | succ n =>
          rw [hs n hn]
          simp [hn, Nat.add_comm]
      · simp only [generate_response, if_neg h0]
        rfl
  refine ⟨first, ?_, ?_⟩
  · intro b rest1 rest2
    cases b <;> rfl
  · intro a ha
    rw [first] at ha
    exact contentFirstText_some ha

/-- Helper: when the round produced at least one tool result, the buffer
update appends exactly the assistant response followed by one user message
holding all tool results of the round. -/
theorem singleRoundMessages_ne_nil (tm : ToolManager) (msgs : List ChatMessage)
    (resp : ModelResponse) (h : roundToolResults tm resp.content ≠ []) :
    singleRoundMessages tm msgs resp
      = msgs ++ [⟨"assistant", MessageContent.ofBlocks resp.content⟩,
                 ⟨"user", MessageContent.ofResults (roundToolResults tm resp.content)⟩] := by
  have hie : (roundToolResults tm resp.content).isEmpty = false := by
    cases hc : roundToolResults tm resp.content with
    | nil => exact absurd hc h
    | cons a l => rfl
  simp [singleRoundMessages, hie]

/-- C3: in any tool-dispatch round, the dispatched results are exactly one
entry per tool-use request block, in order, each keyed by the call id of
its request; a tool whose execution raises is replaced by the text Tool
execution error followed by the message while every other request block of
the same response is still dispatched; and the user message appended to
the buffer carries exactly this result list. -/
theorem C3_round_dispatch (tm : ToolManager) (msgs : List ChatMessage)
    (resp : ModelResponse) :
    roundToolResults tm resp.content
      = (toolRequests resp.content).map (fun r => ⟨r.2.1, execOutcome tm r.1 r.2.2⟩) ∧
    (roundToolResults tm resp.content).length = (toolRequests resp.content).length ∧
    roundToolCalls resp.content = (toolRequests resp.content).map (fun r => (r.1, r.2.2)) ∧
    (∀ (name id : String) (input : List (String × String)) (e : String),
      ContentBlock.toolUse name id input ∈ resp.content →
      tm name input = Except.error e →
      (⟨id, "Tool execution error: " ++ e⟩ : ToolResultEntry)
        ∈ roundToolResults tm resp.content) ∧
    (toolRequests resp.content ≠ [] →
      singleRoundMessages tm msgs resp
        = msgs ++ [⟨"assistant", MessageContent.ofBlocks resp.content⟩,
                   ⟨"user", MessageContent.ofResults (roundToolResults tm resp.content)⟩]) := by
  refine ⟨roundToolResults_eq_map tm resp.content, ?_,
    roundToolCalls_eq_map resp.content, roundToolResults_error_mem tm resp.content, ?_⟩
  · rw [roundToolResults_eq_map]
    exact List.length_map _ _
  · intro hne
    apply singleRoundMessages_ne_nil
    rw [roundToolResults_eq_map]
    intro hc
    exact hne (List.map_eq_nil_iff.mp hc)

/-- A tool manager for the concrete two-tool round: the first tool
succeeds, the second raises. -/
def exTMfail : ToolManager := fun name _ =>
  if name = "search_course_content" then Except.error "Search service unavailable"
  else Except.ok "Course outline: Lesson 1, 2, 3"

/-- A response requesting two tools in one round. -/
def exRespTwo : ModelResponse :=
  ⟨"tool_use",
   [ContentBlock.toolUse "get_course_outline" "t1" [("course_title", "MCP")],
    ContentBlock.toolUse "search_course_content" "t2" [("query", "advanced")]]⟩

/-- C3 witness: in a round where the first tool succeeds and the second
raises, the failing call contributes the error text under its own call id
and the buffer still receives one result per request. -/
theorem C3_witness :
    (⟨"t2", "Tool execution error: Search service unavailable"⟩ : ToolResultEntry)
      ∈ roundToolResults exTMfail exRespTwo.content ∧
    (roundToolResults exTMfail exRespTwo.content).length
      = (toolRequests exRespTwo.content).length := by
  have h := C3_round_dispatch exTMfail [] exRespTwo
  exact ⟨h.2.2.2.1 "search_course_content" "t2" [("query", "advanced")]
    "Search service unavailable" (by decide) rfl, h.2.1⟩

/-- Modelled from the spec: the result record of the retrieval
collaborator consumed by the content-search tool (vector_store.py with its
SearchResults class is absent from src/, only its tests are present):
matched passages, their (course title, lesson number) metadata in the same
order, and an error message.  The tool tests the truthiness of the error
field, so the empty string embeds the absence of a failure, matching the
tests that build results via SearchResults.empty with an error text. -/
structure SearchResults where
  documents : List String
  metadata : List (String × Option Nat)
  error : String
  deriving DecidableEq

/-- Modelled from the spec: the display label of a citation,
course title followed by the lesson part when a lesson number exists. -/
def citationLabel (course : String) (lesson : Option Nat) : String :=
  course ++ (match lesson with
             | some n => " - Lesson " ++ toString n
             | none => "")

/-- Modelled from the spec: one formatted passage,
bracketed header followed by the passage text. -/
def formatEntry (course : String) (lesson : Option Nat) (doc : String) : String :=
  "[" ++ citationLabel course lesson ++ "] " ++ doc

/-- Modelled from the spec and the repository tests: one recorded
citation, the display label paired with the lesson link (separated by a
vertical bar) when the retrieval collaborator resolves one. -/
def sourceEntry (getLessonLink : String → Nat → Option String)
    (course : String) (lesson : Option Nat) : String :=
  match lesson with
  | some n =>
    match getLessonLink course n with
    | some link => citationLabel course lesson ++ "|" ++ link
    | none => citationLabel course lesson
  | none => citationLabel course lesson

/-- Modelled from the spec: the formatted result text of a successful
search, one formatted entry per matched passage, joined by blank lines. -/
def formattedText (results : SearchResults) : String :=
  String.intercalate "\n\n"
    ((results.documents.zip results.metadata).map fun p => formatEntry p.2.1 p.2.2 p.1)

/-- Modelled from the spec: the citations recorded by a successful search,
one source entry per matched passage, in order, with no deduplication. -/
def recordedSources (getLessonLink : String → Nat → Option String)
    (results : SearchResults) : List String :=
  (results.documents.zip results.metadata).map fun p => sourceEntry getLessonLink p.2.1 p.2.2

/-- The sentinel text returned on an empty result set; capitalization
follows the repository tests (test_search_tools.py). -/
def noContentSentinel : String := "No relevant content found."

/-- Modelled from the spec: CourseSearchTool.execute (search_tools.py is
absent from src/; the behavior follows section 4.2 of the specification
and the repository tests in test_search_tools.py).  On a retrieval-layer
failure the literal failure message is the result text; on an empty result
set the sentinel is the result text; on success the result text is the
formatted passages and one citation per passage is recorded.  The function
returns the result text together with the citations recorded by this
invocation; it is total, embedding that execute never raises toward the
orchestrator. -/
def courseSearchExecute (getLessonLink : String → Nat → Option String)
    (results : SearchResults) : String × List String :=
  if results.error ≠ "" then (results.error, [])
  else if results.documents.isEmpty then (noContentSentinel, [])
  else (formattedText results, recordedSources getLessonLink results)

/-- C6: on a successful search the tool formats each matched passage with
the bracketed course and lesson header and records exactly one citation
per matched passage with no deduplication; in particular 2 passages from 2
distinct (course, lesson) pairs yield exactly 2 citations, each the label
paired with its lesson link. -/
theorem C6_one_citation_per_passage (getLessonLink : String → Nat → Option String)
    (docs : List String) (metas : List (String × Option Nat))
    (hlen : docs.length = metas.length) (hne : docs ≠ []) :
    ((courseSearchExecute getLessonLink ⟨docs, metas, ""⟩).2).length = docs.length ∧
    (courseSearchExecute getLessonLink ⟨docs, metas, ""⟩).2
      = (docs.zip metas).map (fun p => sourceEntry getLessonLink p.2.1 p.2.2) ∧
    (courseSearchExecute getLessonLink ⟨docs, metas, ""⟩).1
      = String.intercalate "\n\n"
          ((docs.zip metas).map fun p => formatEntry p.2.1 p.2.2 p.1) ∧
    (∀ (c1 c2 d1 d2 l1 l2 : String) (n1 n2 : Nat) (g : String → Nat → Option String),
      g c1 n1 = some l1 → g c2 n2 = some l2 →
      courseSearchExecute g ⟨[d1, d2], [(c1, some n1), (c2, some n2)], ""⟩
        = ("[" ++ c1 ++ " - Lesson " ++ toString n1 ++ "] " ++ d1 ++ "\n\n"
            ++ ("[" ++ c2 ++ " - Lesson " ++ toString n2 ++ "] " ++ d2),
           [c1 ++ " - Lesson " ++ toString n1 ++ "|" ++ l1,
            c2 ++ " - Lesson " ++ toString n2 ++ "|" ++ l2])) := by
  have hie : docs.isEmpty = false := by
    cases docs with
    | nil => exact absurd rfl hne
    | cons a l => rfl
  refine ⟨?_, ?_, ?_, ?_⟩
  · simp only [courseSearchExecute, hie]
    simp [recordedSources, List.length_zip, hlen]
  · simp only [courseSearchExecute, hie]
    simp [recordedSources]
  · simp only [courseSearchExecute, hie]
    simp [formattedText]
  · intro c1 c2 d1 d2 l1 l2 n1 n2 g hg1 hg2
    simp [courseSearchExecute, formattedText, recordedSources, sourceEntry, formatEntry,
      citationLabel, hg1, hg2, String.intercalate, String.intercalate.go, String.append_assoc]

/-- C6 witness: two passages from two distinct course and lesson pairs
produce exactly two citations. -/
theorem C6_witness :
    ((courseSearchExecute (fun _ _ => some "link")
      ⟨["Content 1", "Content 2"],
       [("Course A", some 1), ("Course B", some 2)], ""⟩).2).length = 2 :=
  (C6_one_citation_per_passage (fun _ _ => some "link")
    ["Content 1", "Content 2"] [("Course A", some 1), ("Course B", some 2)]
    rfl (by decide)).1

/-- C7: the content-search execute is a total function (it never raises
toward the orchestrator): an empty result set yields the sentinel text, a
retrieval-layer failure yields the literal failure message as the result
text, and in particular a failure message of the form Search error
followed by the message is relayed unchanged. -/
theorem C7_failure_paths (getLessonLink : String → Nat → Option String)
    (results : SearchResults) :
    (results.error ≠ "" → courseSearchExecute getLessonLink results = (results.error, [])) ∧
    (results.error = "" → results.documents = [] →
      courseSearchExecute getLessonLink results = (noContentSentinel, [])) ∧
    (∀ m, results.error = "Search error: " ++ m →
      (courseSearchExecute getLessonLink results).1 = "Search error: " ++ m) := by
  refine ⟨?_, ?_, ?_⟩
  · intro herr
    simp [courseSearchExecute, herr]
  · intro herr hdoc
    simp [courseSearchExecute, herr, hdoc]
  · intro m hm
    have hne2 : ¬("Search error: " ++ m = "") := by
      intro hc
      have := congrArg String.length hc
      simp [String.length_append] at this
      exact absurd this.1 (by decide)
    simp [courseSearchExecute, hm, hne2]

/-- C7 witness: a failure message is relayed as the result text, and an
empty result set yields the sentinel. -/
theorem C7_witness :
    courseSearchExecute (fun _ _ => none) ⟨[], [], "Database connection failed"⟩
      = ("Database connection failed", []) ∧
    courseSearchExecute (fun _ _ => none) ⟨[], [], ""⟩ = (noContentSentinel, []) ∧
    (courseSearchExecute (fun _ _ => none)
      ⟨[], [], "Search error: Number of requested results 0"⟩).1
        = "Search error: " ++ "Number of requested results 0" := by
  refine ⟨?_, ?_, ?_⟩
  · exact (C7_failure_paths (fun _ _ => none)
      ⟨[], [], "Database connection failed"⟩).1 (by decide)
  · exact (C7_failure_paths (fun _ _ => none) ⟨[], [], ""⟩).2.1 rfl rfl
  · exact (C7_failure_paths (fun _ _ => none)
      ⟨[], [], "Search error: Number of requested results 0"⟩).2.2
        "Number of requested results 0" (by decide)

/-- C10 witness: concrete run with a direct answer; the returned text is
the extraction from the last response, whose first content block is the
text block holding it. -/
theorem C10_witness :
    (generate_response exModelDirect "q" none [] none none).result
      = contentFirstText
          (exModelDirect
            ((generate_response exModelDirect "q" none [] none none).requests.length - 1)).content ∧
    ∃ rest,
      (exModelDirect
        ((generate_response exModelDirect "q" none [] none none).requests.length - 1)).content
          = ContentBlock.textBlock "Final answer" :: rest := by
  have h := C10_result_extraction exModelDirect "q" none [] none none
  exact ⟨h.1, h.2.2 "Final answer" rfl⟩
